import Mathlib

/-!
Verification development for the messaging message-list-fetch job orchestrator
(`packages/twenty-server/src/modules/messaging/message-import-manager/jobs/messaging-message-list-fetch.job.ts`).

The orchestrator `handle` is embedded as a pure function.  Every collaborator
interaction (monitoring events, the credential-refresh call, the two fetch
strategies, the failure handler) is recorded, in program order, in a
chronological list of `Action`s, and the in-memory state of the loaded message
channel at the end of the run is returned alongside.  Collaborator outcomes
(the repository lookup, the clock, the refresh result, the two fetch-strategy
outcomes) are inputs, so the theorems quantify over every possible behaviour
of the external services.
-/

namespace TwentyMessaging

/-- Sync stages of a message channel
(`MessageChannelSyncStage` from `message-channel.workspace-entity`).
The two fetch-pending stages are the ones the job dispatches on; every other
stage value is abstracted as `OTHER` carrying its raw name. -/
inductive MessageChannelSyncStage where
  | PARTIAL_MESSAGE_LIST_FETCH_PENDING
  | FULL_MESSAGE_LIST_FETCH_PENDING
  | OTHER (stage : String)
  deriving DecidableEq, Repr

/-- Failure codes of the credential-refresh service
(`ConnectedAccountRefreshAccessTokenExceptionCode`).  The four codes named in
the job's switch are explicit constructors; any other code is `OTHER_CODE`
carrying its raw name, matching the `default:` arm of the switch. -/
inductive ConnectedAccountRefreshAccessTokenExceptionCode where
  | TEMPORARY_NETWORK_ERROR
  | REFRESH_ACCESS_TOKEN_FAILED
  | REFRESH_TOKEN_NOT_FOUND
  | PROVIDER_NOT_SUPPORTED
  | OTHER_CODE (code : String)
  deriving DecidableEq, Repr

/-- The string rendering of a refresh-failure code, as interpolated into the
monitoring message by the template literal in the source. -/
def ConnectedAccountRefreshAccessTokenExceptionCode.codeString :
    ConnectedAccountRefreshAccessTokenExceptionCode → String
  | .TEMPORARY_NETWORK_ERROR => "TEMPORARY_NETWORK_ERROR"
  | .REFRESH_ACCESS_TOKEN_FAILED => "REFRESH_ACCESS_TOKEN_FAILED"
  | .REFRESH_TOKEN_NOT_FOUND => "REFRESH_TOKEN_NOT_FOUND"
  | .PROVIDER_NOT_SUPPORTED => "PROVIDER_NOT_SUPPORTED"
  | .OTHER_CODE code => code

/-- An error raised by the credential-refresh service: a `code`, a `message`,
and an optional `reason` (the source reads `error.code`, `error.message` and
`error.reason ?? ''`). -/
structure ConnectedAccountRefreshAccessTokenException where
  code : ConnectedAccountRefreshAccessTokenExceptionCode
  message : String
  reason : Option String
  deriving DecidableEq, Repr

/-- Driver-exception categories (`MessageImportDriverExceptionCode`); the
three used by the job are explicit, the rest abstracted. -/
inductive MessageImportDriverExceptionCode where
  | TEMPORARY_ERROR
  | INSUFFICIENT_PERMISSIONS
  | PROVIDER_NOT_SUPPORTED
  | OTHER_DRIVER_CODE (code : String)
  deriving DecidableEq, Repr

/-- An error value flowing through the orchestrator: either the refresh
service's own exception, a wrapped `MessageImportDriverException (message,
code)`, or an arbitrary unclassified error (as thrown by a fetch strategy). -/
inductive JsError where
  | refresh (e : ConnectedAccountRefreshAccessTokenException)
  | driver (message : String) (code : MessageImportDriverExceptionCode)
  | unclassified (tag : String)
  deriving DecidableEq, Repr

/-- The connected account: the orchestrator only touches `accessToken`
(mutated by credential refresh) and `id` (event correlation). -/
structure ConnectedAccountWorkspaceEntity where
  id : String
  accessToken : String
  deriving DecidableEq, Repr

/-- The message channel as loaded by the job, with its `connectedAccount` and
`messageFolders` relations (folders are opaque to this core). -/
structure MessageChannelWorkspaceEntity where
  id : String
  connectedAccountId : String
  connectedAccount : ConnectedAccountWorkspaceEntity
  messageFolders : List String
  syncStage : MessageChannelSyncStage
  syncStageStartedAt : Option Nat
  throttleFailureCount : Nat
  deriving DecidableEq, Repr

/-- Job input (`MessagingMessageListFetchJobData`). -/
structure MessagingMessageListFetchJobData where
  messageChannelId : String
  workspaceId : String
  deriving DecidableEq, Repr

/-- A monitoring event as passed to `messagingMonitoringService.track`;
fields absent from a given `track` call are `none`. -/
structure MessagingTelemetryEvent where
  eventName : String
  workspaceId : Option String
  messageChannelId : Option String
  connectedAccountId : Option String
  message : Option String
  deriving DecidableEq, Repr

/-- Arguments of a `refreshAndSaveTokens` call. -/
structure RefreshTokensCall where
  connectedAccount : ConnectedAccountWorkspaceEntity
  workspaceId : String
  deriving DecidableEq, Repr

/-- Arguments of a `messagingPartialMessageListFetchService.processMessageListFetch` call. -/
structure PartialMessageListFetchCall where
  messageChannel : MessageChannelWorkspaceEntity
  connectedAccount : ConnectedAccountWorkspaceEntity
  workspaceId : String
  deriving DecidableEq, Repr

/-- Arguments of a `messagingFullMessageListFetchService.processMessageListFetch` call. -/
structure FullMessageListFetchCall where
  messageChannel : MessageChannelWorkspaceEntity
  workspaceId : String
  deriving DecidableEq, Repr

/-- Step markers accepted by the failure handler (`MessageImportSyncStep`);
the job only ever uses `FULL_OR_PARTIAL_MESSAGE_LIST_FETCH`, other members of
the enum are abstracted. -/
inductive MessageImportSyncStep where
  | FULL_OR_PARTIAL_MESSAGE_LIST_FETCH
  | OTHER_STEP (step : String)
  deriving DecidableEq, Repr

/-- Arguments of a `messageImportErrorHandlerService.handleDriverException` call. -/
structure HandleDriverExceptionCall where
  error : JsError
  syncStep : MessageImportSyncStep
  messageChannel : MessageChannelWorkspaceEntity
  workspaceId : String
  deriving DecidableEq, Repr

/-- One collaborator interaction performed by the orchestrator, recorded in
program order. -/
inductive Action where
  | track (event : MessagingTelemetryEvent)
  | refreshTokens (call : RefreshTokensCall)
  | partialFetch (call : PartialMessageListFetchCall)
  | fullFetch (call : FullMessageListFetchCall)
  | handleDriverException (call : HandleDriverExceptionCall)
  deriving DecidableEq, Repr

/-- Outcomes of the external collaborators for one invocation:
the repository lookup result, the current time (JavaScript `new Date()`
inside the throttle guard), the credential-refresh result, and the outcomes
the two fetch strategies would produce if invoked. -/
structure CollaboratorEnv where
  messageChannelLookup : Option MessageChannelWorkspaceEntity
  now : Nat
  refreshAndSaveTokensResult :
    Except ConnectedAccountRefreshAccessTokenException String
  partialFetchOutcome : Except JsError Unit
  fullFetchOutcome : Except JsError Unit

/-- The observable result of one `handle` run: the chronological trace of
collaborator interactions and the in-memory state of the loaded channel when
the run ends (`none` when the lookup found no channel). -/
structure HandleResult where
  actions : List Action
  finalMessageChannel : Option MessageChannelWorkspaceEntity
  deriving DecidableEq, Repr

/-- The monitoring events of a run, in emission order. -/
def HandleResult.events (r : HandleResult) : List MessagingTelemetryEvent :=
  r.actions.filterMap fun a =>
    match a with
    | .track e => some e
    | _ => none

/-- The credential-refresh calls of a run. -/
def HandleResult.refreshCalls (r : HandleResult) : List RefreshTokensCall :=
  r.actions.filterMap fun a =>
    match a with
    | .refreshTokens c => some c
    | _ => none

/-- The partial-fetch strategy calls of a run. -/
def HandleResult.partialFetchCalls (r : HandleResult) :
    List PartialMessageListFetchCall :=
  r.actions.filterMap fun a =>
    match a with
    | .partialFetch c => some c
    | _ => none

/-- The full-fetch strategy calls of a run. -/
def HandleResult.fullFetchCalls (r : HandleResult) :
    List FullMessageListFetchCall :=
  r.actions.filterMap fun a =>
    match a with
    | .fullFetch c => some c
    | _ => none

/-- The failure-handler calls of a run. -/
def HandleResult.failureHandlerCalls (r : HandleResult) :
    List HandleDriverExceptionCall :=
  r.actions.filterMap fun a =>
    match a with
    | .handleDriverException c => some c
    | _ => none

/-- Modelled from the spec: the job imports `isThrottled` from
`src/modules/connected-account/utils/is-throttled`, a file that is not among
the sources here.  Per section 4.2 the guard is a pure predicate of the
elapsed time since `syncStageStartedAt` and of `throttleFailureCount`, with a
cooldown window growing monotonically (exponential backoff) in the failure
count, minimal at zero failures; a channel with no stage start time is never
throttled.  `MESSAGING_THROTTLE_DURATION` is the base cooldown in
milliseconds. -/
def MESSAGING_THROTTLE_DURATION : Nat := 300000

/-- Modelled from the spec (section 4.2, see `MESSAGING_THROTTLE_DURATION`):
skip while the current time is still inside the cooldown window that starts
at `syncStageStartedAt` and lasts the base duration scaled by
`2 ^ throttleFailureCount`. -/
def isThrottled (syncStageStartedAt : Option Nat) (throttleFailureCount : Nat)
    (now : Nat) : Bool :=
  match syncStageStartedAt with
  | none => false
  | some startedAt =>
      decide (now < startedAt + MESSAGING_THROTTLE_DURATION * 2 ^ throttleFailureCount)

/-- The `message_list_fetch_job.triggered` event. -/
def jobTriggeredEvent (messageChannelId workspaceId : String) :
    MessagingTelemetryEvent :=
  { eventName := "message_list_fetch_job.triggered"
    workspaceId := some workspaceId
    messageChannelId := some messageChannelId
    connectedAccountId := none
    message := none }

/-- The `message_list_fetch_job.error.message_channel_not_found` event. -/
def messageChannelNotFoundEvent (messageChannelId workspaceId : String) :
    MessagingTelemetryEvent :=
  { eventName := "message_list_fetch_job.error.message_channel_not_found"
    workspaceId := some workspaceId
    messageChannelId := some messageChannelId
    connectedAccountId := none
    message := none }

/-- The `refresh_token.error.insufficient_permissions` event: correlation ids
from the channel, and the message `${error.code}: ${error.reason ?? ''}`. -/
def insufficientPermissionsEvent (messageChannel : MessageChannelWorkspaceEntity)
    (workspaceId : String)
    (error : ConnectedAccountRefreshAccessTokenException) :
    MessagingTelemetryEvent :=
  { eventName := "refresh_token.error.insufficient_permissions"
    workspaceId := some workspaceId
    messageChannelId := some messageChannel.id
    connectedAccountId := some messageChannel.connectedAccountId
    message := some (error.code.codeString ++ ": " ++ error.reason.getD "") }

/-- A fetch lifecycle event (`partial_message_list_fetch.started` etc.):
correlation ids from the channel and its connected account. -/
def fetchLifecycleEvent (eventName : String)
    (messageChannel : MessageChannelWorkspaceEntity) (workspaceId : String) :
    MessagingTelemetryEvent :=
  { eventName := eventName
    workspaceId := some workspaceId
    messageChannelId := some messageChannel.id
    connectedAccountId := some messageChannel.connectedAccount.id
    message := none }

/-- The channel with its connected account's access token replaced, as done
in place by the credential-refresh step. -/
def withAccessToken (messageChannel : MessageChannelWorkspaceEntity)
    (accessToken : String) : MessageChannelWorkspaceEntity :=
  { messageChannel with
      connectedAccount := { messageChannel.connectedAccount with accessToken } }

/-- A run that ends in the orchestrator's top-level catch: the prior actions
followed by the single `handleDriverException` forwarding of `error` with the
`FULL_OR_PARTIAL_MESSAGE_LIST_FETCH` step marker, the channel and the
workspace id. -/
def caughtResult (prior : List Action) (error : JsError)
    (messageChannel : MessageChannelWorkspaceEntity) (workspaceId : String) :
    HandleResult :=
  { actions := prior ++
      [Action.handleDriverException
        { error
          syncStep := MessageImportSyncStep.FULL_OR_PARTIAL_MESSAGE_LIST_FETCH
          messageChannel
          workspaceId }]
    finalMessageChannel := some messageChannel }

/-- The embedding of `MessagingMessageListFetchJob.handle`: emit the
triggered event; load the channel (not found: emit the not-found event and
return); inside the top-level try: return when throttled; refresh the access
token, translating refresh failures per the switch on `error.code`; dispatch
on `syncStage`, bracketing the delegated fetch call with its lifecycle
events; any error thrown in the try block is caught once and forwarded to
`handleDriverException`. -/
def handle (data : MessagingMessageListFetchJobData) (env : CollaboratorEnv) :
    HandleResult :=
  let triggered := Action.track
    (jobTriggeredEvent data.messageChannelId data.workspaceId)
  match env.messageChannelLookup with
  | none =>
      { actions := [triggered,
          Action.track
            (messageChannelNotFoundEvent data.messageChannelId data.workspaceId)]
        finalMessageChannel := none }
  | some messageChannel =>
      if isThrottled messageChannel.syncStageStartedAt
          messageChannel.throttleFailureCount env.now then
        { actions := [triggered]
          finalMessageChannel := some messageChannel }
      else
        let refreshCall := Action.refreshTokens
          { connectedAccount := messageChannel.connectedAccount
            workspaceId := data.workspaceId }
        match env.refreshAndSaveTokensResult with
        | Except.error error =>
            match error.code with
            | .TEMPORARY_NETWORK_ERROR =>
                caughtResult [triggered, refreshCall]
                  (JsError.driver error.message
                    MessageImportDriverExceptionCode.TEMPORARY_ERROR)
                  messageChannel data.workspaceId
            | .REFRESH_ACCESS_TOKEN_FAILED =>
                caughtResult [triggered, refreshCall,
                    Action.track (insufficientPermissionsEvent messageChannel
                      data.workspaceId error)]
                  (JsError.driver error.message
                    MessageImportDriverExceptionCode.INSUFFICIENT_PERMISSIONS)
                  messageChannel data.workspaceId
            | .REFRESH_TOKEN_NOT_FOUND =>
                caughtResult [triggered, refreshCall,
                    Action.track (insufficientPermissionsEvent messageChannel
                      data.workspaceId error)]
                  (JsError.driver error.message
                    MessageImportDriverExceptionCode.INSUFFICIENT_PERMISSIONS)
                  messageChannel data.workspaceId
            | .PROVIDER_NOT_SUPPORTED =>
                caughtResult [triggered, refreshCall]
                  (JsError.driver error.message
                    MessageImportDriverExceptionCode.PROVIDER_NOT_SUPPORTED)
                  messageChannel data.workspaceId
            | .OTHER_CODE _ =>
                caughtResult [triggered, refreshCall]
                  (JsError.refresh error) messageChannel data.workspaceId
        | Except.ok newAccessToken =>
            let updatedChannel := withAccessToken messageChannel newAccessToken
            match messageChannel.syncStage with
            | .PARTIAL_MESSAGE_LIST_FETCH_PENDING =>
                let started := Action.track (fetchLifecycleEvent
                  "partial_message_list_fetch.started" updatedChannel
                  data.workspaceId)
                let fetchCall := Action.partialFetch
                  { messageChannel := updatedChannel
                    connectedAccount := updatedChannel.connectedAccount
                    workspaceId := data.workspaceId }
                match env.partialFetchOutcome with
                | Except.ok _ =>
                    { actions := [triggered, refreshCall, started, fetchCall,
                        Action.track (fetchLifecycleEvent
                          "partial_message_list_fetch.completed" updatedChannel
                          data.workspaceId)]
                      finalMessageChannel := some updatedChannel }
                | Except.error fetchError =>
                    caughtResult [triggered, refreshCall, started, fetchCall]
                      fetchError updatedChannel data.workspaceId
            | .FULL_MESSAGE_LIST_FETCH_PENDING =>
                let started := Action.track (fetchLifecycleEvent
                  "full_message_list_fetch.started" updatedChannel
                  data.workspaceId)
                let fetchCall := Action.fullFetch
                  { messageChannel := updatedChannel
                    workspaceId := data.workspaceId }
                match env.fullFetchOutcome with
                | Except.ok _ =>
                    { actions := [triggered, refreshCall, started, fetchCall,
                        Action.track (fetchLifecycleEvent
                          "full_message_list_fetch.completed" updatedChannel
                          data.workspaceId)]
                      finalMessageChannel := some updatedChannel }
                | Except.error fetchError =>
                    caughtResult [triggered, refreshCall, started, fetchCall]
                      fetchError updatedChannel data.workspaceId
            | .OTHER _ =>
                { actions := [triggered, refreshCall]
                  finalMessageChannel := some updatedChannel }

/-! Concrete fixtures used by the witness theorems. -/

/-- A connected account fixture. -/
def sampleConnectedAccount : ConnectedAccountWorkspaceEntity :=
  { id := "connected-account-1", accessToken := "old-token" }

/-- A channel pending a partial fetch, never throttled (no stage start time). -/
def samplePartialChannel : MessageChannelWorkspaceEntity :=
  { id := "message-channel-1"
    connectedAccountId := "connected-account-1"
    connectedAccount := sampleConnectedAccount
    messageFolders := ["INBOX"]
    syncStage := MessageChannelSyncStage.PARTIAL_MESSAGE_LIST_FETCH_PENDING
    syncStageStartedAt := none
    throttleFailureCount := 0 }

/-- A channel pending a full fetch. -/
def sampleFullChannel : MessageChannelWorkspaceEntity :=
  { samplePartialChannel with
      syncStage := MessageChannelSyncStage.FULL_MESSAGE_LIST_FETCH_PENDING }

/-- A channel in an idle stage. -/
def sampleIdleChannel : MessageChannelWorkspaceEntity :=
  { samplePartialChannel with
      syncStage := MessageChannelSyncStage.OTHER "MESSAGES_IMPORT_PENDING" }

/-- A channel whose current stage attempt just started (throttled at `now = 0`). -/
def sampleFreshChannel : MessageChannelWorkspaceEntity :=
  { samplePartialChannel with syncStageStartedAt := some 0 }

/-- The job input fixture. -/
def sampleData : MessagingMessageListFetchJobData :=
  { messageChannelId := "message-channel-1", workspaceId := "workspace-1" }

/-- Collaborators all succeed. -/
def sampleEnvOk : CollaboratorEnv :=
  { messageChannelLookup := some samplePartialChannel
    now := 0
    refreshAndSaveTokensResult := Except.ok "new-token"
    partialFetchOutcome := Except.ok ()
    fullFetchOutcome := Except.ok () }

/-- A refresh failure with an unrecognized code. -/
def sampleUnrecognizedRefreshError : ConnectedAccountRefreshAccessTokenException :=
  { code := ConnectedAccountRefreshAccessTokenExceptionCode.OTHER_CODE "ACCESS_TOKEN_COULD_NOT_BE_DECRYPTED"
    message := "token decryption failed"
    reason := some "bad key" }

/-- A refresh failure whose code maps to insufficient permissions. -/
def sampleTokenNotFoundError : ConnectedAccountRefreshAccessTokenException :=
  { code := ConnectedAccountRefreshAccessTokenExceptionCode.REFRESH_TOKEN_NOT_FOUND
    message := "no refresh token"
    reason := none }

/-- The refresh-failure translation table as the spec words it (section
4.3): the three recognized reason groups map to wrapped driver exceptions
carrying the original message and the tabled category; any other reason is
the original error re-raised unchanged.  Stated separately from `handle` so
the code's switch can be compared against the spec's table. -/
def specRefreshTranslation
    (error : ConnectedAccountRefreshAccessTokenException) : JsError :=
  match error.code with
  | .TEMPORARY_NETWORK_ERROR =>
      JsError.driver error.message MessageImportDriverExceptionCode.TEMPORARY_ERROR
  | .REFRESH_ACCESS_TOKEN_FAILED =>
      JsError.driver error.message MessageImportDriverExceptionCode.INSUFFICIENT_PERMISSIONS
  | .REFRESH_TOKEN_NOT_FOUND =>
      JsError.driver error.message MessageImportDriverExceptionCode.INSUFFICIENT_PERMISSIONS
  | .PROVIDER_NOT_SUPPORTED =>
      JsError.driver error.message MessageImportDriverExceptionCode.PROVIDER_NOT_SUPPORTED
  | .OTHER_CODE _ => JsError.refresh error

/-- Collaborators succeed except the partial-fetch strategy. -/
def sampleEnvPartialFetchFail : CollaboratorEnv :=
  { sampleEnvOk with
      partialFetchOutcome := Except.error (JsError.unclassified "gmail 500") }

/-- Collaborators succeed except credential refresh, which fails with an
unrecognized code. -/
def sampleEnvRefreshFailOther : CollaboratorEnv :=
  { sampleEnvOk with
      refreshAndSaveTokensResult := Except.error sampleUnrecognizedRefreshError }

/-- Collaborators succeed except credential refresh, which fails with
`REFRESH_TOKEN_NOT_FOUND`. -/
def sampleEnvRefreshFailNotFound : CollaboratorEnv :=
  { sampleEnvOk with
      refreshAndSaveTokensResult := Except.error sampleTokenNotFoundError }

/-- The sample channel after a successful token refresh. -/
def sampleUpdatedChannel : MessageChannelWorkspaceEntity :=
  withAccessToken samplePartialChannel "new-token"

/-- The failure-handler call produced by `sampleEnvPartialFetchFail`. -/
def sampleFailureCall : HandleDriverExceptionCall :=
  { error := JsError.unclassified "gmail 500"
    syncStep := MessageImportSyncStep.FULL_OR_PARTIAL_MESSAGE_LIST_FETCH
    messageChannel := sampleUpdatedChannel
    workspaceId := "workspace-1" }

/-! Helper lemmas: the exact run produced on each branch of `handle`. -/

/-- Replacing the access token with the one already held is the identity. -/
theorem withAccessToken_self (mc : MessageChannelWorkspaceEntity) :
    withAccessToken mc mc.connectedAccount.accessToken = mc := rfl

/-- Run shape: channel not found. -/
theorem run_not_found (data : MessagingMessageListFetchJobData)
    (env : CollaboratorEnv) (hnotfound : env.messageChannelLookup = none) :
    handle data env =
      { actions := [Action.track
            (jobTriggeredEvent data.messageChannelId data.workspaceId),
          Action.track
            (messageChannelNotFoundEvent data.messageChannelId data.workspaceId)]
        finalMessageChannel := none } := by
  simp [handle, hnotfound]

/-- Run shape: channel found but throttled. -/
theorem run_throttled (data : MessagingMessageListFetchJobData)
    (env : CollaboratorEnv) (messageChannel : MessageChannelWorkspaceEntity)
    (hfound : env.messageChannelLookup = some messageChannel)
    (hthrottled : isThrottled messageChannel.syncStageStartedAt
        messageChannel.throttleFailureCount env.now = true) :
    handle data env =
      { actions := [Action.track
          (jobTriggeredEvent data.messageChannelId data.workspaceId)]
        finalMessageChannel := some messageChannel } := by
  simp [handle, hfound, hthrottled]

/-- Run shape: credential refresh fails; the run ends in the top-level catch
with the translated error, after the insufficient-permissions event exactly
when the code is one of the two permission-related ones. -/
theorem run_refresh_error (data : MessagingMessageListFetchJobData)
    (env : CollaboratorEnv) (messageChannel : MessageChannelWorkspaceEntity)
    (error : ConnectedAccountRefreshAccessTokenException)
    (hfound : env.messageChannelLookup = some messageChannel)
    (hnotThrottled : isThrottled messageChannel.syncStageStartedAt
        messageChannel.throttleFailureCount env.now = false)
    (hrefresh : env.refreshAndSaveTokensResult = Except.error error) :
    handle data env =
      caughtResult
        ([Action.track (jobTriggeredEvent data.messageChannelId data.workspaceId),
          Action.refreshTokens
            { connectedAccount := messageChannel.connectedAccount
              workspaceId := data.workspaceId }] ++
          (if error.code = ConnectedAccountRefreshAccessTokenExceptionCode.REFRESH_ACCESS_TOKEN_FAILED ∨
              error.code = ConnectedAccountRefreshAccessTokenExceptionCode.REFRESH_TOKEN_NOT_FOUND
            then [Action.track (insufficientPermissionsEvent messageChannel
              data.workspaceId error)]
            else []))
        (specRefreshTranslation error) messageChannel data.workspaceId := by
  cases hc : error.code <;>
    simp [handle, hfound, hnotThrottled, hrefresh, hc, specRefreshTranslation,
      caughtResult]

/-- Run shape: refresh succeeds, partial fetch succeeds. -/
theorem run_partial_ok (data : MessagingMessageListFetchJobData)
    (env : CollaboratorEnv) (messageChannel : MessageChannelWorkspaceEntity)
    (newAccessToken : String)
    (hfound : env.messageChannelLookup = some messageChannel)
    (hnotThrottled : isThrottled messageChannel.syncStageStartedAt
        messageChannel.throttleFailureCount env.now = false)
    (hrefresh : env.refreshAndSaveTokensResult = Except.ok newAccessToken)
    (hstage : messageChannel.syncStage =
      MessageChannelSyncStage.PARTIAL_MESSAGE_LIST_FETCH_PENDING)
    (hfetch : env.partialFetchOutcome = Except.ok ()) :
    handle data env =
      { actions := [Action.track
            (jobTriggeredEvent data.messageChannelId data.workspaceId),
          Action.refreshTokens
            { connectedAccount := messageChannel.connectedAccount
              workspaceId := data.workspaceId },
          Action.track (fetchLifecycleEvent "partial_message_list_fetch.started"
            (withAccessToken messageChannel newAccessToken) data.workspaceId),
          Action.partialFetch
            { messageChannel := withAccessToken messageChannel newAccessToken
              connectedAccount :=
                (withAccessToken messageChannel newAccessToken).connectedAccount
              workspaceId := data.workspaceId },
          Action.track (fetchLifecycleEvent "partial_message_list_fetch.completed"
            (withAccessToken messageChannel newAccessToken) data.workspaceId)]
        finalMessageChannel :=
          some (withAccessToken messageChannel newAccessToken) } := by
  simp [handle, hfound, hnotThrottled, hrefresh, hstage, hfetch]

/-- Run shape: refresh succeeds, partial fetch fails. -/
theorem run_partial_error (data : MessagingMessageListFetchJobData)
    (env : CollaboratorEnv) (messageChannel : MessageChannelWorkspaceEntity)
    (newAccessToken : String) (fetchError : JsError)
    (hfound : env.messageChannelLookup = some messageChannel)
    (hnotThrottled : isThrottled messageChannel.syncStageStartedAt
        messageChannel.throttleFailureCount env.now = false)
    (hrefresh : env.refreshAndSaveTokensResult = Except.ok newAccessToken)
    (hstage : messageChannel.syncStage =
      MessageChannelSyncStage.PARTIAL_MESSAGE_LIST_FETCH_PENDING)
    (hfetch : env.partialFetchOutcome = Except.error fetchError) :
    handle data env =
      caughtResult
        [Action.track (jobTriggeredEvent data.messageChannelId data.workspaceId),
          Action.refreshTokens
            { connectedAccount := messageChannel.connectedAccount
              workspaceId := data.workspaceId },
          Action.track (fetchLifecycleEvent "partial_message_list_fetch.started"
            (withAccessToken messageChannel newAccessToken) data.workspaceId),
          Action.partialFetch
            { messageChannel := withAccessToken messageChannel newAccessToken
              connectedAccount :=
                (withAccessToken messageChannel newAccessToken).connectedAccount
              workspaceId := data.workspaceId }]
        fetchError (withAccessToken messageChannel newAccessToken)
        data.workspaceId := by
  simp [handle, hfound, hnotThrottled, hrefresh, hstage, hfetch, caughtResult]

/-- Run shape: refresh succeeds, full fetch succeeds. -/
theorem run_full_ok (data : MessagingMessageListFetchJobData)
    (env : CollaboratorEnv) (messageChannel : MessageChannelWorkspaceEntity)
    (newAccessToken : String)
    (hfound : env.messageChannelLookup = some messageChannel)
    (hnotThrottled : isThrottled messageChannel.syncStageStartedAt
        messageChannel.throttleFailureCount env.now = false)
    (hrefresh : env.refreshAndSaveTokensResult = Except.ok newAccessToken)
    (hstage : messageChannel.syncStage =
      MessageChannelSyncStage.FULL_MESSAGE_LIST_FETCH_PENDING)
    (hfetch : env.fullFetchOutcome = Except.ok ()) :
    handle data env =
      { actions := [Action.track
            (jobTriggeredEvent data.messageChannelId data.workspaceId),
          Action.refreshTokens
            { connectedAccount := messageChannel.connectedAccount
              workspaceId := data.workspaceId },
          Action.track (fetchLifecycleEvent "full_message_list_fetch.started"
            (withAccessToken messageChannel newAccessToken) data.workspaceId),
          Action.fullFetch
            { messageChannel := withAccessToken messageChannel newAccessToken
              workspaceId := data.workspaceId },
          Action.track (fetchLifecycleEvent "full_message_list_fetch.completed"
            (withAccessToken messageChannel newAccessToken) data.workspaceId)]
        finalMessageChannel :=
          some (withAccessToken messageChannel newAccessToken) } := by
  simp [handle, hfound, hnotThrottled, hrefresh, hstage, hfetch]

/-- Run shape: refresh succeeds, full fetch fails. -/
theorem run_full_error (data : MessagingMessageListFetchJobData)
    (env : CollaboratorEnv) (messageChannel : MessageChannelWorkspaceEntity)
    (newAccessToken : String) (fetchError : JsError)
    (hfound : env.messageChannelLookup = some messageChannel)
    (hnotThrottled : isThrottled messageChannel.syncStageStartedAt
        messageChannel.throttleFailureCount env.now = false)
    (hrefresh : env.refreshAndSaveTokensResult = Except.ok newAccessToken)
    (hstage : messageChannel.syncStage =
      MessageChannelSyncStage.FULL_MESSAGE_LIST_FETCH_PENDING)
    (hfetch : env.fullFetchOutcome = Except.error fetchError) :
    handle data env =
      caughtResult
        [Action.track (jobTriggeredEvent data.messageChannelId data.workspaceId),
          Action.refreshTokens
            { connectedAccount := messageChannel.connectedAccount
              workspaceId := data.workspaceId },
          Action.track (fetchLifecycleEvent "full_message_list_fetch.started"
            (withAccessToken messageChannel newAccessToken) data.workspaceId),
          Action.fullFetch
            { messageChannel := withAccessToken messageChannel newAccessToken
              workspaceId := data.workspaceId }]
        fetchError (withAccessToken messageChannel newAccessToken)
        data.workspaceId := by
  simp [handle, hfound, hnotThrottled, hrefresh, hstage, hfetch, caughtResult]

/-- Run shape: refresh succeeds, idle stage. -/
theorem run_other_stage (data : MessagingMessageListFetchJobData)
    (env : CollaboratorEnv) (messageChannel : MessageChannelWorkspaceEntity)
    (stage newAccessToken : String)
    (hfound : env.messageChannelLookup = some messageChannel)
    (hnotThrottled : isThrottled messageChannel.syncStageStartedAt
        messageChannel.throttleFailureCount env.now = false)
    (hrefresh : env.refreshAndSaveTokensResult = Except.ok newAccessToken)
    (hstage : messageChannel.syncStage = MessageChannelSyncStage.OTHER stage) :
    handle data env =
      { actions := [Action.track
            (jobTriggeredEvent data.messageChannelId data.workspaceId),
          Action.refreshTokens
            { connectedAccount := messageChannel.connectedAccount
              workspaceId := data.workspaceId }]
        finalMessageChannel :=
          some (withAccessToken messageChannel newAccessToken) } := by
  simp [handle, hfound, hnotThrottled, hrefresh, hstage]

/-- Shape of every possible run of `handle`, across all collaborator
behaviours: at most one call to each collaborator besides monitoring, every
failure-handler call carries the step marker, the job's workspace id and the
loaded channel (up to its refreshed access token), and the final channel
state differs from the loaded one at most in the access token, which can
only come from a successful refresh. -/
theorem handle_run_shape (data : MessagingMessageListFetchJobData)
    (env : CollaboratorEnv) :
    ((handle data env).failureHandlerCalls.length ≤ 1) ∧
    (∀ c ∈ (handle data env).failureHandlerCalls,
        c.syncStep = MessageImportSyncStep.FULL_OR_PARTIAL_MESSAGE_LIST_FETCH ∧
        c.workspaceId = data.workspaceId ∧
        ∃ mc tok, env.messageChannelLookup = some mc ∧
          c.messageChannel = withAccessToken mc tok) ∧
    ((handle data env).refreshCalls.length ≤ 1) ∧
    ((handle data env).partialFetchCalls.length ≤ 1) ∧
    ((handle data env).fullFetchCalls.length ≤ 1) ∧
    (env.messageChannelLookup = none →
      (handle data env).finalMessageChannel = none ∧
        (handle data env).failureHandlerCalls = []) ∧
    (∀ mc, env.messageChannelLookup = some mc →
      ∃ tok, (handle data env).finalMessageChannel =
          some (withAccessToken mc tok) ∧
        (tok = mc.connectedAccount.accessToken ∨
          env.refreshAndSaveTokensResult = Except.ok tok)) := by
  cases hl : env.messageChannelLookup with
  | none =>
      rw [run_not_found data env hl]
      simp [HandleResult.failureHandlerCalls, HandleResult.refreshCalls,
        HandleResult.partialFetchCalls, HandleResult.fullFetchCalls]
  | some mc =>
    by_cases ht : isThrottled mc.syncStageStartedAt mc.throttleFailureCount
        env.now = true
    case pos =>
      rw [run_throttled data env mc hl ht]
      refine ⟨by simp [HandleResult.failureHandlerCalls],
        by simp [HandleResult.failureHandlerCalls],
        by simp [HandleResult.refreshCalls],
        by simp [HandleResult.partialFetchCalls],
        by simp [HandleResult.fullFetchCalls], by simp, ?_⟩
      intro mc' hmc'
      injection hmc' with hmc'
      subst hmc'
      exact ⟨mc.connectedAccount.accessToken, by rw [withAccessToken_self],
        Or.inl rfl⟩
    case neg =>
      simp only [Bool.not_eq_true] at ht
      cases hr : env.refreshAndSaveTokensResult with
      | error err =>
          rw [run_refresh_error data env mc err hl ht hr]
          by_cases hic : err.code =
                ConnectedAccountRefreshAccessTokenExceptionCode.REFRESH_ACCESS_TOKEN_FAILED ∨
              err.code =
                ConnectedAccountRefreshAccessTokenExceptionCode.REFRESH_TOKEN_NOT_FOUND
          · refine ⟨?_, ?_, ?_, ?_, ?_, by simp [caughtResult], ?_⟩
            · simp [hic, caughtResult, HandleResult.failureHandlerCalls]
            · intro c hcmem
              simp [hic, caughtResult, HandleResult.failureHandlerCalls]
                at hcmem
              subst hcmem
              exact ⟨rfl, rfl, mc, mc.connectedAccount.accessToken, rfl,
                (withAccessToken_self mc).symm⟩
            · simp [hic, caughtResult, HandleResult.refreshCalls]
            · simp [hic, caughtResult, HandleResult.partialFetchCalls]
            · simp [hic, caughtResult, HandleResult.fullFetchCalls]
            · intro mc' hmc'
              injection hmc' with hmc'
              subst hmc'
              exact ⟨mc.connectedAccount.accessToken,
                by simp [caughtResult, withAccessToken_self], Or.inl rfl⟩
          · refine ⟨?_, ?_, ?_, ?_, ?_, by simp [caughtResult], ?_⟩
            · simp [hic, caughtResult, HandleResult.failureHandlerCalls]
            · intro c hcmem
              simp [hic, caughtResult, HandleResult.failureHandlerCalls]
                at hcmem
              subst hcmem
              exact ⟨rfl, rfl, mc, mc.connectedAccount.accessToken, rfl,
                (withAccessToken_self mc).symm⟩
            · simp [hic, caughtResult, HandleResult.refreshCalls]
            · simp [hic, caughtResult, HandleResult.partialFetchCalls]
            · simp [hic, caughtResult, HandleResult.fullFetchCalls]
            · intro mc' hmc'
              injection hmc' with hmc'
              subst hmc'
              exact ⟨mc.connectedAccount.accessToken,
                by simp [caughtResult, withAccessToken_self], Or.inl rfl⟩
      | ok newTok =>
          cases hs : mc.syncStage with
          | PARTIAL_MESSAGE_LIST_FETCH_PENDING =>
              cases hp : env.partialFetchOutcome with
              | ok u =>
                  cases u
                  rw [run_partial_ok data env mc newTok hl ht hr hs hp]
                  refine ⟨by simp [HandleResult.failureHandlerCalls],
                    by simp [HandleResult.failureHandlerCalls],
                    by simp [HandleResult.refreshCalls],
                    by simp [HandleResult.partialFetchCalls],
                    by simp [HandleResult.fullFetchCalls], by simp, ?_⟩
                  intro mc' hmc'
                  injection hmc' with hmc'
                  subst hmc'
                  exact ⟨newTok, rfl, Or.inr rfl⟩
              | error ferr =>
                  rw [run_partial_error data env mc newTok ferr hl ht hr hs hp]
                  refine ⟨?_, ?_, ?_, ?_, ?_, by simp [caughtResult], ?_⟩
                  · simp [caughtResult, HandleResult.failureHandlerCalls]
                  · intro c hcmem
                    simp [caughtResult, HandleResult.failureHandlerCalls]
                      at hcmem
                    subst hcmem
                    exact ⟨rfl, rfl, mc, newTok, rfl, rfl⟩
                  · simp [caughtResult, HandleResult.refreshCalls]
                  · simp [caughtResult, HandleResult.partialFetchCalls]
                  · simp [caughtResult, HandleResult.fullFetchCalls]
                  · intro mc' hmc'
                    injection hmc' with hmc'
                    subst hmc'
                    exact ⟨newTok, rfl, Or.inr rfl⟩
          | FULL_MESSAGE_LIST_FETCH_PENDING =>
              cases hp : env.fullFetchOutcome with
              | ok u =>
                  cases u
                  rw [run_full_ok data env mc newTok hl ht hr hs hp]
                  refine ⟨by simp [HandleResult.failureHandlerCalls],
                    by simp [HandleResult.failureHandlerCalls],
                    by simp [HandleResult.refreshCalls],
                    by simp [HandleResult.partialFetchCalls],
                    by simp [HandleResult.fullFetchCalls], by simp, ?_⟩
                  intro mc' hmc'
                  injection hmc' with hmc'
                  subst hmc'
                  exact ⟨newTok, rfl, Or.inr rfl⟩
              | error ferr =>
                  rw [run_full_error data env mc newTok ferr hl ht hr hs hp]
                  refine ⟨?_, ?_, ?_, ?_, ?_, by simp [caughtResult], ?_⟩
                  · simp [caughtResult, HandleResult.failureHandlerCalls]
                  · intro c hcmem
                    simp [caughtResult, HandleResult.failureHandlerCalls]
                      at hcmem
                    subst hcmem
                    exact ⟨rfl, rfl, mc, newTok, rfl, rfl⟩
                  · simp [caughtResult, HandleResult.refreshCalls]
                  · simp [caughtResult, HandleResult.partialFetchCalls]
                  · simp [caughtResult, HandleResult.fullFetchCalls]
                  · intro mc' hmc'
                    injection hmc' with hmc'
                    subst hmc'
                    exact ⟨newTok, rfl, Or.inr rfl⟩
          | OTHER s =>
              rw [run_other_stage data env mc s newTok hl ht hr hs]
              refine ⟨by simp [HandleResult.failureHandlerCalls],
                by simp [HandleResult.failureHandlerCalls],
                by simp [HandleResult.refreshCalls],
                by simp [HandleResult.partialFetchCalls],
                by simp [HandleResult.fullFetchCalls], by simp, ?_⟩
              intro mc' hmc'
              injection hmc' with hmc'
              subst hmc'
              exact ⟨newTok, rfl, Or.inr rfl⟩

/-! Claim theorems. -/

/-- Claim C9: the Throttle Guard `isThrottled` is a pure function of the
stage start time, the failure count and the clock, monotone in the failure
count: for a fixed elapsed time, raising the failure count never turns a
skip decision into a non-skip decision (so zero failures is the minimal
cooldown). -/
theorem isThrottled_monotone_in_failureCount (syncStageStartedAt : Option Nat)
    (k k' now : Nat) (hk : k ≤ k')
    (h : isThrottled syncStageStartedAt k now = true) :
    isThrottled syncStageStartedAt k' now = true := by
  cases syncStageStartedAt with
  | none => simp [isThrottled] at h
  | some startedAt =>
      simp only [isThrottled, decide_eq_true_eq] at h ⊢
      have hpow : 2 ^ k ≤ 2 ^ k' := Nat.pow_le_pow_right (by norm_num) hk
      have hmul := Nat.mul_le_mul_left MESSAGING_THROTTLE_DURATION hpow
      omega

/-- Witness for C9 at a concrete input. -/
theorem isThrottled_monotone_in_failureCount_witness :
    (0 : Nat) ≤ 3 ∧ isThrottled (some 0) 0 0 = true ∧
      isThrottled (some 0) 3 0 = true :=
  ⟨by decide, by decide,
    isThrottled_monotone_in_failureCount (some 0) 0 3 0 (by decide) (by decide)⟩

/-- Claim C4: when the channel is found and the Throttle Guard signals skip,
`handle` returns successfully having done nothing beyond the initial
job-triggered event: no refresh call, no fetch call, no failure-handler
call, no further event, and the channel left untouched. -/
theorem handle_throttled_skips (data : MessagingMessageListFetchJobData)
    (env : CollaboratorEnv) (messageChannel : MessageChannelWorkspaceEntity)
    (hfound : env.messageChannelLookup = some messageChannel)
    (hthrottled : isThrottled messageChannel.syncStageStartedAt
        messageChannel.throttleFailureCount env.now = true) :
    handle data env =
      { actions := [Action.track
          (jobTriggeredEvent data.messageChannelId data.workspaceId)]
        finalMessageChannel := some messageChannel } := by
  simp [handle, hfound, hthrottled]

/-- Witness for C4 at a concrete input. -/
theorem handle_throttled_skips_witness :
    ({ sampleEnvOk with
        messageChannelLookup := some sampleFreshChannel } :
          CollaboratorEnv).messageChannelLookup = some sampleFreshChannel ∧
    isThrottled sampleFreshChannel.syncStageStartedAt
      sampleFreshChannel.throttleFailureCount 0 = true ∧
    handle sampleData
        { sampleEnvOk with messageChannelLookup := some sampleFreshChannel } =
      { actions := [Action.track
          (jobTriggeredEvent sampleData.messageChannelId sampleData.workspaceId)]
        finalMessageChannel := some sampleFreshChannel } :=
  ⟨rfl, by decide,
    handle_throttled_skips sampleData
      { sampleEnvOk with messageChannelLookup := some sampleFreshChannel }
      sampleFreshChannel rfl (by decide)⟩

/-- Claim C5: when the channel lookup returns none, `handle` emits exactly
the job-triggered event followed by one channel-not-found event (carrying
the channel id and workspace id) and returns successfully; no throttle
check, refresh, fetch or failure-handler call happens. -/
theorem handle_channel_not_found (data : MessagingMessageListFetchJobData)
    (env : CollaboratorEnv)
    (hnotfound : env.messageChannelLookup = none) :
    handle data env =
      { actions := [Action.track
            (jobTriggeredEvent data.messageChannelId data.workspaceId),
          Action.track
            (messageChannelNotFoundEvent data.messageChannelId data.workspaceId)]
        finalMessageChannel := none } := by
  simp [handle, hnotfound]

/-- Witness for C5 at a concrete input. -/
theorem handle_channel_not_found_witness :
    ({ sampleEnvOk with messageChannelLookup := none } :
        CollaboratorEnv).messageChannelLookup = none ∧
    handle sampleData { sampleEnvOk with messageChannelLookup := none } =
      { actions := [Action.track
            (jobTriggeredEvent sampleData.messageChannelId sampleData.workspaceId),
          Action.track (messageChannelNotFoundEvent sampleData.messageChannelId
            sampleData.workspaceId)]
        finalMessageChannel := none } :=
  ⟨rfl, handle_channel_not_found sampleData
    { sampleEnvOk with messageChannelLookup := none } rfl⟩

/-- Claim C7: for a sync stage other than the two fetch-pending stages, the
stage router is a no-op: the run ends successfully with only the triggered
event and the refresh call, no fetch-lifecycle event, no fetch strategy
call, and no failure-handler call. -/
theorem handle_other_stage_noop (data : MessagingMessageListFetchJobData)
    (env : CollaboratorEnv) (messageChannel : MessageChannelWorkspaceEntity)
    (stage newAccessToken : String)
    (hfound : env.messageChannelLookup = some messageChannel)
    (hnotThrottled : isThrottled messageChannel.syncStageStartedAt
        messageChannel.throttleFailureCount env.now = false)
    (hrefresh : env.refreshAndSaveTokensResult = Except.ok newAccessToken)
    (hstage : messageChannel.syncStage = MessageChannelSyncStage.OTHER stage) :
    handle data env =
      { actions := [Action.track
            (jobTriggeredEvent data.messageChannelId data.workspaceId),
          Action.refreshTokens
            { connectedAccount := messageChannel.connectedAccount
              workspaceId := data.workspaceId }]
        finalMessageChannel :=
          some (withAccessToken messageChannel newAccessToken) } := by
  simp [handle, hfound, hnotThrottled, hrefresh, hstage]

/-- Witness for C7 at a concrete input. -/
theorem handle_other_stage_noop_witness :
    ({ sampleEnvOk with messageChannelLookup := some sampleIdleChannel } :
        CollaboratorEnv).messageChannelLookup = some sampleIdleChannel ∧
    isThrottled sampleIdleChannel.syncStageStartedAt
      sampleIdleChannel.throttleFailureCount 0 = false ∧
    sampleIdleChannel.syncStage =
      MessageChannelSyncStage.OTHER "MESSAGES_IMPORT_PENDING" ∧
    handle sampleData
        { sampleEnvOk with messageChannelLookup := some sampleIdleChannel } =
      { actions := [Action.track
            (jobTriggeredEvent sampleData.messageChannelId sampleData.workspaceId),
          Action.refreshTokens
            { connectedAccount := sampleIdleChannel.connectedAccount
              workspaceId := sampleData.workspaceId }]
        finalMessageChannel :=
          some (withAccessToken sampleIdleChannel "new-token") } :=
  ⟨rfl, by decide, rfl,
    handle_other_stage_noop sampleData
      { sampleEnvOk with messageChannelLookup := some sampleIdleChannel }
      sampleIdleChannel "MESSAGES_IMPORT_PENDING" "new-token" rfl (by decide)
      rfl rfl⟩

/-- Claim C2: the refresh-error translator is total and matches the spec's
table: TEMPORARY_NETWORK_ERROR wraps into category TEMPORARY_ERROR,
REFRESH_ACCESS_TOKEN_FAILED and REFRESH_TOKEN_NOT_FOUND into
INSUFFICIENT_PERMISSIONS, PROVIDER_NOT_SUPPORTED into
PROVIDER_NOT_SUPPORTED, each wrapped exception carrying the original
message; any other code re-raises the original error value unchanged; and
the failure is never swallowed — exactly one failure-handler call receives
the translated error. -/
theorem handle_refresh_failure_translated (data : MessagingMessageListFetchJobData)
    (env : CollaboratorEnv) (messageChannel : MessageChannelWorkspaceEntity)
    (error : ConnectedAccountRefreshAccessTokenException)
    (hfound : env.messageChannelLookup = some messageChannel)
    (hnotThrottled : isThrottled messageChannel.syncStageStartedAt
        messageChannel.throttleFailureCount env.now = false)
    (hrefresh : env.refreshAndSaveTokensResult = Except.error error) :
    (handle data env).failureHandlerCalls =
      [{ error := specRefreshTranslation error
         syncStep := MessageImportSyncStep.FULL_OR_PARTIAL_MESSAGE_LIST_FETCH
         messageChannel := messageChannel
         workspaceId := data.workspaceId }] := by
  rw [run_refresh_error data env messageChannel error hfound hnotThrottled hrefresh]
  by_cases h : error.code =
        ConnectedAccountRefreshAccessTokenExceptionCode.REFRESH_ACCESS_TOKEN_FAILED ∨
      error.code =
        ConnectedAccountRefreshAccessTokenExceptionCode.REFRESH_TOKEN_NOT_FOUND <;>
    simp [h, caughtResult, HandleResult.failureHandlerCalls]

/-- Witness for C2 at a concrete input: an unrecognized refresh-failure code
is forwarded as the original error value, unchanged. -/
theorem handle_refresh_failure_translated_witness :
    sampleEnvRefreshFailOther.messageChannelLookup = some samplePartialChannel ∧
    isThrottled samplePartialChannel.syncStageStartedAt
      samplePartialChannel.throttleFailureCount sampleEnvRefreshFailOther.now = false ∧
    sampleEnvRefreshFailOther.refreshAndSaveTokensResult =
      Except.error sampleUnrecognizedRefreshError ∧
    (handle sampleData sampleEnvRefreshFailOther).failureHandlerCalls =
      [{ error := JsError.refresh sampleUnrecognizedRefreshError
         syncStep := MessageImportSyncStep.FULL_OR_PARTIAL_MESSAGE_LIST_FETCH
         messageChannel := samplePartialChannel
         workspaceId := "workspace-1" }] :=
  ⟨rfl, by decide, rfl,
    handle_refresh_failure_translated sampleData sampleEnvRefreshFailOther
      samplePartialChannel sampleUnrecognizedRefreshError rfl (by decide) rfl⟩

/-- Claim C6: a refresh failure with code REFRESH_ACCESS_TOKEN_FAILED or
REFRESH_TOKEN_NOT_FOUND emits exactly one
`refresh_token.error.insufficient_permissions` event — carrying the
workspace id, the channel's connected-account id and channel id, and the
message combining the original code and reason — and the emission precedes
the forwarding of the wrapped INSUFFICIENT_PERMISSIONS exception; every
other translation branch emits no event at all beyond the triggered one. -/
theorem handle_insufficient_permissions_emission
    (data : MessagingMessageListFetchJobData) (env : CollaboratorEnv)
    (messageChannel : MessageChannelWorkspaceEntity)
    (error : ConnectedAccountRefreshAccessTokenException)
    (hfound : env.messageChannelLookup = some messageChannel)
    (hnotThrottled : isThrottled messageChannel.syncStageStartedAt
        messageChannel.throttleFailureCount env.now = false)
    (hrefresh : env.refreshAndSaveTokensResult = Except.error error) :
    ((error.code =
        ConnectedAccountRefreshAccessTokenExceptionCode.REFRESH_ACCESS_TOKEN_FAILED ∨
      error.code =
        ConnectedAccountRefreshAccessTokenExceptionCode.REFRESH_TOKEN_NOT_FOUND) →
      handle data env =
        { actions := [Action.track
              (jobTriggeredEvent data.messageChannelId data.workspaceId),
            Action.refreshTokens
              { connectedAccount := messageChannel.connectedAccount
                workspaceId := data.workspaceId },
            Action.track (insufficientPermissionsEvent messageChannel
              data.workspaceId error),
            Action.handleDriverException
              { error := JsError.driver error.message
                  MessageImportDriverExceptionCode.INSUFFICIENT_PERMISSIONS
                syncStep := MessageImportSyncStep.FULL_OR_PARTIAL_MESSAGE_LIST_FETCH
                messageChannel := messageChannel
                workspaceId := data.workspaceId }]
          finalMessageChannel := some messageChannel }) ∧
    (¬(error.code =
        ConnectedAccountRefreshAccessTokenExceptionCode.REFRESH_ACCESS_TOKEN_FAILED ∨
      error.code =
        ConnectedAccountRefreshAccessTokenExceptionCode.REFRESH_TOKEN_NOT_FOUND) →
      (handle data env).events =
        [jobTriggeredEvent data.messageChannelId data.workspaceId]) := by
  constructor
  · intro h
    have hspec : specRefreshTranslation error =
        JsError.driver error.message
          MessageImportDriverExceptionCode.INSUFFICIENT_PERMISSIONS := by
      rcases h with hc | hc <;> simp [specRefreshTranslation, hc]
    rw [run_refresh_error data env messageChannel error hfound hnotThrottled hrefresh]
    simp [h, caughtResult, hspec]
  · intro h
    rw [run_refresh_error data env messageChannel error hfound hnotThrottled hrefresh]
    simp [h, caughtResult, HandleResult.events]

/-- Witness for C6 at a concrete input: a REFRESH_TOKEN_NOT_FOUND failure
emits the insufficient-permissions event and then forwards the wrapped
exception. -/
theorem handle_insufficient_permissions_emission_witness :
    sampleEnvRefreshFailNotFound.messageChannelLookup = some samplePartialChannel ∧
    isThrottled samplePartialChannel.syncStageStartedAt
      samplePartialChannel.throttleFailureCount sampleEnvRefreshFailNotFound.now = false ∧
    sampleEnvRefreshFailNotFound.refreshAndSaveTokensResult =
      Except.error sampleTokenNotFoundError ∧
    sampleTokenNotFoundError.code =
      ConnectedAccountRefreshAccessTokenExceptionCode.REFRESH_TOKEN_NOT_FOUND ∧
    handle sampleData sampleEnvRefreshFailNotFound =
      { actions := [Action.track
            (jobTriggeredEvent sampleData.messageChannelId sampleData.workspaceId),
          Action.refreshTokens
            { connectedAccount := samplePartialChannel.connectedAccount
              workspaceId := sampleData.workspaceId },
          Action.track (insufficientPermissionsEvent samplePartialChannel
            sampleData.workspaceId sampleTokenNotFoundError),
          Action.handleDriverException
            { error := JsError.driver sampleTokenNotFoundError.message
                MessageImportDriverExceptionCode.INSUFFICIENT_PERMISSIONS
              syncStep := MessageImportSyncStep.FULL_OR_PARTIAL_MESSAGE_LIST_FETCH
              messageChannel := samplePartialChannel
              workspaceId := sampleData.workspaceId }]
        finalMessageChannel := some samplePartialChannel } :=
  ⟨rfl, by decide, rfl, rfl,
    (handle_insufficient_permissions_emission sampleData
      sampleEnvRefreshFailNotFound samplePartialChannel sampleTokenNotFoundError
      rfl (by decide) rfl).1 (Or.inr rfl)⟩

/-- Claim C3: once the stage router is reached with a refreshed token,
exactly one branch executes; for the partial-pending stage the started and
completed events bracket the single partial-fetch call (invoked with the
channel, its connected account and the workspace id), and symmetrically for
the full-pending stage (strategy invoked with channel and workspace id); on
a fetch failure only the started event of the pair was emitted and the error
reaches the failure handler. -/
theorem handle_stage_router_brackets (data : MessagingMessageListFetchJobData)
    (env : CollaboratorEnv) (messageChannel : MessageChannelWorkspaceEntity)
    (newAccessToken : String)
    (hfound : env.messageChannelLookup = some messageChannel)
    (hnotThrottled : isThrottled messageChannel.syncStageStartedAt
        messageChannel.throttleFailureCount env.now = false)
    (hrefresh : env.refreshAndSaveTokensResult = Except.ok newAccessToken) :
    (messageChannel.syncStage =
        MessageChannelSyncStage.PARTIAL_MESSAGE_LIST_FETCH_PENDING →
      (env.partialFetchOutcome = Except.ok () →
        handle data env =
          { actions := [Action.track
                (jobTriggeredEvent data.messageChannelId data.workspaceId),
              Action.refreshTokens
                { connectedAccount := messageChannel.connectedAccount
                  workspaceId := data.workspaceId },
              Action.track (fetchLifecycleEvent "partial_message_list_fetch.started"
                (withAccessToken messageChannel newAccessToken) data.workspaceId),
              Action.partialFetch
                { messageChannel := withAccessToken messageChannel newAccessToken
                  connectedAccount :=
                    (withAccessToken messageChannel newAccessToken).connectedAccount
                  workspaceId := data.workspaceId },
              Action.track (fetchLifecycleEvent
                "partial_message_list_fetch.completed"
                (withAccessToken messageChannel newAccessToken) data.workspaceId)]
            finalMessageChannel :=
              some (withAccessToken messageChannel newAccessToken) }) ∧
      (∀ fetchError, env.partialFetchOutcome = Except.error fetchError →
        handle data env =
          { actions := [Action.track
                (jobTriggeredEvent data.messageChannelId data.workspaceId),
              Action.refreshTokens
                { connectedAccount := messageChannel.connectedAccount
                  workspaceId := data.workspaceId },
              Action.track (fetchLifecycleEvent "partial_message_list_fetch.started"
                (withAccessToken messageChannel newAccessToken) data.workspaceId),
              Action.partialFetch
                { messageChannel := withAccessToken messageChannel newAccessToken
                  connectedAccount :=
                    (withAccessToken messageChannel newAccessToken).connectedAccount
                  workspaceId := data.workspaceId },
              Action.handleDriverException
                { error := fetchError
                  syncStep := MessageImportSyncStep.FULL_OR_PARTIAL_MESSAGE_LIST_FETCH
                  messageChannel := withAccessToken messageChannel newAccessToken
                  workspaceId := data.workspaceId }]
            finalMessageChannel :=
              some (withAccessToken messageChannel newAccessToken) })) ∧
    (messageChannel.syncStage =
        MessageChannelSyncStage.FULL_MESSAGE_LIST_FETCH_PENDING →
      (env.fullFetchOutcome = Except.ok () →
        handle data env =
          { actions := [Action.track
                (jobTriggeredEvent data.messageChannelId data.workspaceId),
              Action.refreshTokens
                { connectedAccount := messageChannel.connectedAccount
                  workspaceId := data.workspaceId },
              Action.track (fetchLifecycleEvent "full_message_list_fetch.started"
                (withAccessToken messageChannel newAccessToken) data.workspaceId),
              Action.fullFetch
                { messageChannel := withAccessToken messageChannel newAccessToken
                  workspaceId := data.workspaceId },
              Action.track (fetchLifecycleEvent "full_message_list_fetch.completed"
                (withAccessToken messageChannel newAccessToken) data.workspaceId)]
            finalMessageChannel :=
              some (withAccessToken messageChannel newAccessToken) }) ∧
      (∀ fetchError, env.fullFetchOutcome = Except.error fetchError →
        handle data env =
          { actions := [Action.track
                (jobTriggeredEvent data.messageChannelId data.workspaceId),
              Action.refreshTokens
                { connectedAccount := messageChannel.connectedAccount
                  workspaceId := data.workspaceId },
              Action.track (fetchLifecycleEvent "full_message_list_fetch.started"
                (withAccessToken messageChannel newAccessToken) data.workspaceId),
              Action.fullFetch
                { messageChannel := withAccessToken messageChannel newAccessToken
                  workspaceId := data.workspaceId },
              Action.handleDriverException
                { error := fetchError
                  syncStep := MessageImportSyncStep.FULL_OR_PARTIAL_MESSAGE_LIST_FETCH
                  messageChannel := withAccessToken messageChannel newAccessToken
                  workspaceId := data.workspaceId }]
            finalMessageChannel :=
              some (withAccessToken messageChannel newAccessToken) })) := by
  refine ⟨fun hstage => ⟨fun hfetch => ?_, fun fetchError hfetch => ?_⟩,
    fun hstage => ⟨fun hfetch => ?_, fun fetchError hfetch => ?_⟩⟩
  · exact run_partial_ok data env messageChannel newAccessToken hfound
      hnotThrottled hrefresh hstage hfetch
  · rw [run_partial_error data env messageChannel newAccessToken fetchError
      hfound hnotThrottled hrefresh hstage hfetch]
    simp [caughtResult]
  · exact run_full_ok data env messageChannel newAccessToken hfound
      hnotThrottled hrefresh hstage hfetch
  · rw [run_full_error data env messageChannel newAccessToken fetchError
      hfound hnotThrottled hrefresh hstage hfetch]
    simp [caughtResult]

/-- Witness for C3 at a concrete input: the successful partial-fetch run. -/
theorem handle_stage_router_brackets_witness :
    sampleEnvOk.messageChannelLookup = some samplePartialChannel ∧
    isThrottled samplePartialChannel.syncStageStartedAt
      samplePartialChannel.throttleFailureCount sampleEnvOk.now = false ∧
    sampleEnvOk.refreshAndSaveTokensResult = Except.ok "new-token" ∧
    samplePartialChannel.syncStage =
      MessageChannelSyncStage.PARTIAL_MESSAGE_LIST_FETCH_PENDING ∧
    sampleEnvOk.partialFetchOutcome = Except.ok () ∧
    handle sampleData sampleEnvOk =
      { actions := [Action.track
            (jobTriggeredEvent sampleData.messageChannelId sampleData.workspaceId),
          Action.refreshTokens
            { connectedAccount := samplePartialChannel.connectedAccount
              workspaceId := sampleData.workspaceId },
          Action.track (fetchLifecycleEvent "partial_message_list_fetch.started"
            sampleUpdatedChannel sampleData.workspaceId),
          Action.partialFetch
            { messageChannel := sampleUpdatedChannel
              connectedAccount := sampleUpdatedChannel.connectedAccount
              workspaceId := sampleData.workspaceId },
          Action.track (fetchLifecycleEvent "partial_message_list_fetch.completed"
            sampleUpdatedChannel sampleData.workspaceId)]
        finalMessageChannel := some sampleUpdatedChannel } :=
  ⟨rfl, by decide, rfl, rfl, rfl,
    ((handle_stage_router_brackets sampleData sampleEnvOk samplePartialChannel
      "new-token" rfl (by decide) rfl).1 rfl).1 rfl⟩

/-- Claim C1: whatever the collaborators do, any error raised during
credential refresh or stage dispatch is caught once at the top level —
there is at most one failure-handler call per run, and every such call
carries the FULL_OR_PARTIAL_MESSAGE_LIST_FETCH step marker, the job's
workspace id and the loaded channel (up to its refreshed access token) —
and the orchestrator retries nothing: each fetch strategy and the refresh
service are invoked at most once. -/
theorem handle_failure_forwarded_once (data : MessagingMessageListFetchJobData)
    (env : CollaboratorEnv) :
    ((handle data env).failureHandlerCalls.length ≤ 1) ∧
    (∀ c ∈ (handle data env).failureHandlerCalls,
        c.syncStep = MessageImportSyncStep.FULL_OR_PARTIAL_MESSAGE_LIST_FETCH ∧
        c.workspaceId = data.workspaceId ∧
        ∃ mc tok, env.messageChannelLookup = some mc ∧
          c.messageChannel = withAccessToken mc tok) ∧
    ((handle data env).refreshCalls.length ≤ 1) ∧
    ((handle data env).partialFetchCalls.length ≤ 1) ∧
    ((handle data env).fullFetchCalls.length ≤ 1) := by
  obtain ⟨h1, h2, h3, h4, h5, -, -⟩ := handle_run_shape data env
  exact ⟨h1, h2, h3, h4, h5⟩

/-- Witness for C1 at a concrete input: a failing partial fetch produces one
failure-handler call with the step marker and workspace id. -/
theorem handle_failure_forwarded_once_witness :
    sampleFailureCall ∈
      (handle sampleData sampleEnvPartialFetchFail).failureHandlerCalls ∧
    sampleFailureCall.syncStep =
      MessageImportSyncStep.FULL_OR_PARTIAL_MESSAGE_LIST_FETCH ∧
    sampleFailureCall.workspaceId = sampleData.workspaceId ∧
    (handle sampleData sampleEnvPartialFetchFail).failureHandlerCalls.length ≤ 1 := by
  have h := handle_failure_forwarded_once sampleData sampleEnvPartialFetchFail
  have hmem : sampleFailureCall ∈
      (handle sampleData sampleEnvPartialFetchFail).failureHandlerCalls := by
    decide
  exact ⟨hmem, (h.2.1 sampleFailureCall hmem).1,
    (h.2.1 sampleFailureCall hmem).2.1, h.1⟩

/-- Claim C8: within one run the orchestrator mutates at most the connected
account's access token of the loaded channel, assigned at most once and only
from a successful refresh; every other field of the channel and of the
connected account is unchanged in the final state. -/
theorem handle_frame_accessToken_only (data : MessagingMessageListFetchJobData)
    (env : CollaboratorEnv) (messageChannel : MessageChannelWorkspaceEntity)
    (hfound : env.messageChannelLookup = some messageChannel) :
    ∃ tok, (handle data env).finalMessageChannel =
        some { messageChannel with
          connectedAccount :=
            { messageChannel.connectedAccount with accessToken := tok } } ∧
      (tok = messageChannel.connectedAccount.accessToken ∨
        env.refreshAndSaveTokensResult = Except.ok tok) := by
  obtain ⟨-, -, -, -, -, -, h7⟩ := handle_run_shape data env
  exact h7 messageChannel hfound

/-- Witness for C8 at a concrete input. -/
theorem handle_frame_accessToken_only_witness :
    sampleEnvOk.messageChannelLookup = some samplePartialChannel ∧
    ∃ tok, (handle sampleData sampleEnvOk).finalMessageChannel =
        some { samplePartialChannel with
          connectedAccount :=
            { samplePartialChannel.connectedAccount with accessToken := tok } } ∧
      (tok = samplePartialChannel.connectedAccount.accessToken ∨
        sampleEnvOk.refreshAndSaveTokensResult = Except.ok tok) :=
  ⟨rfl, handle_frame_accessToken_only sampleData sampleEnvOk
    samplePartialChannel rfl⟩

/-- Claim C10: the failure handler is never reached without a loaded
channel: when the lookup returns none there is no failure-handler call, and
every failure-handler call carries the channel loaded at the start of the
run (up to its refreshed access token) with its connected-account and
folder relations intact. -/
theorem handle_failure_handler_needs_channel
    (data : MessagingMessageListFetchJobData) (env : CollaboratorEnv) :
    (env.messageChannelLookup = none →
      (handle data env).failureHandlerCalls = []) ∧
    (∀ c ∈ (handle data env).failureHandlerCalls,
      ∃ mc tok, env.messageChannelLookup = some mc ∧
        c.messageChannel = withAccessToken mc tok) := by
  obtain ⟨-, h2, -, -, -, h6, -⟩ := handle_run_shape data env
  exact ⟨fun hn => (h6 hn).2, fun c hc => (h2 c hc).2.2⟩

/-- Witness for C10 at a concrete input: with no channel found, no
failure-handler call occurs. -/
theorem handle_failure_handler_needs_channel_witness :
    ({ sampleEnvOk with messageChannelLookup := none } :
        CollaboratorEnv).messageChannelLookup = none ∧
    (handle sampleData
        { sampleEnvOk with messageChannelLookup := none }).failureHandlerCalls = [] :=
  ⟨rfl, (handle_failure_handler_needs_channel sampleData
    { sampleEnvOk with messageChannelLookup := none }).1 rfl⟩

end TwentyMessaging
